import Mathlib

/-!
Shallow embedding of `remio/camio.py` (the `Camera` device engine and the
`Cameras` registry).  Frames are modelled syntactically: `cv2.resize` and
`cv2.flip` become constructors, so a preprocessed frame records exactly which
operations the code applied.  Python exceptions become `Except`/explicit
result constructors; blocking primitives (`Queue.put`, `Queue.get`,
`time.sleep`, event waits) are modelled by explicit outcome flags and by an
action trace recording the order of the loop's side effects.
-/

/-- A frame, modelled syntactically.  `raw n` is a frame as delivered by
`device.read()`; the other constructors record the cv2 operations applied by
`Camera.preprocess` and the background synthesised by `createBackground`. -/
inductive Frame where
  | raw (id : Nat)
  | resized (dims : List Nat) (f : Frame)
  | flipped (axis : Nat) (f : Frame)
  | bg (shape : List Nat) (text : String)
deriving DecidableEq, Repr

/-- A Python sequence argument that is either a `tuple` or a `list`:
`createBackground` treats the two differently (`list.append` exists,
`tuple.append` does not). -/
inductive PySeq where
  | tup (elems : List Nat)
  | lst (elems : List Nat)
deriving DecidableEq, Repr

/-- The element view of a `PySeq` (what `len`, slicing and `np.zeros` see). -/
def PySeq.elems : PySeq → List Nat
  | .tup es => es
  | .lst es => es

/-- The `cv2.VideoCapture` handle: all the loop observes of it is
`isOpened()`. -/
structure DeviceHandle where
  opened : Bool
deriving DecidableEq, Repr

/-- Model of `VideoCapture.release()`. -/
def DeviceHandle.release (_d : DeviceHandle) : DeviceHandle :=
  { opened := false }

/-- The state of one `Camera` object: its constructor arguments, the fields
derived in `__init__`, and the mutable runtime fields (events, lock, queue,
frames, thread). -/
structure CameraState where
  src : Nat
  name : String
  fps : Option ℚ
  size : Option PySeq
  flipX : Bool
  flipY : Bool
  emitterIsEnabled : Bool
  backgroundIsEnabled : Bool
  queueModeEnabled : Bool
  queueMaxSize : Nat
  encoderIsEnabled : Bool
  processing : Option (Frame → Frame)
  delay : ℚ
  defaultDelay : ℚ
  reconnectDelay : ℚ
  defaultSize : List Nat
  frame : Option Frame
  frame64 : Option String
  background : Option Frame
  queue : List Frame
  device : Option DeviceHandle
  threadStarted : Bool
  running : Bool
  pauseEvent : Bool
  readEvent : Bool
  readLock : Bool

/-- Model of `Camera.isConnected`: the handle exists and reports `isOpened()`. -/
def CameraState.isConnected (s : CameraState) : Bool :=
  match s.device with
  | some d => d.opened
  | none => false

/-- Model of `Camera.resume`: `pauseEvent.set()`. -/
def CameraState.resume (s : CameraState) : CameraState :=
  { s with pauseEvent := true }

/-- Model of `Camera.pause`: `pauseEvent.clear()`. -/
def CameraState.pause (s : CameraState) : CameraState :=
  { s with pauseEvent := false }

/-- Model of `Camera.setSpeed`: store `fps`; when it is not `None`, recompute
`defaultDelay = delay = 1/fps`. -/
def CameraState.setSpeed (s : CameraState) (fps : Option ℚ) : CameraState :=
  let s1 := { s with fps := fps }
  match fps with
  | some f => { s1 with defaultDelay := 1 / f, delay := 1 / f }
  | none => s1

/-- Model of `Camera.start`: `self.thread.start()`.  `threading.Thread.start` raises
`RuntimeError` when the same `Thread` object was already started. -/
def CameraState.start (s : CameraState) : Except String CameraState :=
  if s.threadStarted then
    Except.error "RuntimeError: threads can only be started once"
  else
    Except.ok { s with threadStarted := true }

/-- Model of `Camera.getFrame`. -/
def CameraState.getFrame (s : CameraState) : Option Frame :=
  s.frame

/-- Model of `Camera.getFrame64`. -/
def CameraState.getFrame64 (s : CameraState) : Option String :=
  s.frame64

/-- Model of `Camera.preprocess`: optional `cv2.resize(frame, size[:2])`, then
`cv2.flip(frame, 1)` when `flipX`, then `cv2.flip(frame, 0)` when `flipY`. -/
def CameraState.preprocess (s : CameraState) (frame : Frame) : Frame :=
  let f1 := match s.size with
    | some sq => Frame.resized (sq.elems.take 2) frame
    | none => frame
  let f2 := if s.flipX then Frame.flipped 1 f1 else f1
  if s.flipY then Frame.flipped 0 f2 else f2

/-- Model of `Camera.process`: apply the user transform when one is configured. -/
def CameraState.process (s : CameraState) (frame : Frame) : Frame :=
  match s.processing with
  | some p => p frame
  | none => frame

/-- Model of `queue.Queue` fullness: `maxsize <= 0` means unbounded, otherwise the
queue is full at `maxsize` items.  A blocking `put` on a full queue with no
consumer never returns. -/
def queueFull (maxSize : Nat) (q : List Frame) : Bool :=
  decide (0 < maxSize) && decide (maxSize ≤ q.length)

/-- One observable side effect of the control loop, in program order. -/
inductive LoopAct where
  | clearReadEvent
  | acquireLock
  | deviceRead (ok : Bool)
  | storeFrame (f : Frame)
  | emitEvt (evtName : String)
  | enqueue (f : Frame)
  | putBlocked
  | setReadEvent
  | releaseLock
  | loadDevice
  | sleep (d : ℚ)
  | waitPause
deriving DecidableEq, Repr

/-- Is this action a `time.sleep`? -/
def LoopAct.isSleep : LoopAct → Bool
  | .sleep _ => true
  | _ => false

/-- Is this action an `emit` call? -/
def LoopAct.isEmit : LoopAct → Bool
  | .emitEvt _ => true
  | _ => false

/-- Is this action a `queue.put` that enqueued? -/
def LoopAct.isEnqueue : LoopAct → Bool
  | .enqueue _ => true
  | _ => false

/-- Result of running a piece of the control loop: the state it leaves, the
trace of side effects it performed, and whether it blocked forever (a
blocking `queue.put` on a full queue with no consumer). -/
structure StepOut where
  state : CameraState
  trace : List LoopAct
  blocked : Bool

/-- Model of `Camera.update` (one acquisition step): clear `readEvent`, acquire
`readLock`, `device.read()`; on success preprocess + transform, store the
frame, optionally emit the two events, optionally `queue.put` (blocking when
full); finally set `readEvent` and release the lock.  The read result of the
handle is an input, since the hardware is outside the program. -/
def CameraState.update (s : CameraState) (readResult : Bool × Frame) : StepOut :=
  let s1 := { s with readEvent := false, readLock := true }
  let t0 : List LoopAct := [.clearReadEvent, .acquireLock, .deviceRead readResult.1]
  if readResult.1 then
    let fr := s1.process (s1.preprocess readResult.2)
    let s2 := { s1 with frame := some fr }
    let t1 := t0 ++ [.storeFrame fr] ++
      (if s2.emitterIsEnabled then
        [.emitEvt "frame-ready", .emitEvt "frame-available"] else [])
    if s2.queueModeEnabled then
      if queueFull s2.queueMaxSize s2.queue then
        { state := s2, trace := t1 ++ [.putBlocked], blocked := true }
      else
        let s3 := { s2 with queue := s2.queue ++ [fr] }
        { state := { s3 with readEvent := true, readLock := false },
          trace := t1 ++ [.enqueue fr, .setReadEvent, .releaseLock],
          blocked := false }
    else
      { state := { s2 with readEvent := true, readLock := false },
        trace := t1 ++ [.setReadEvent, .releaseLock], blocked := false }
  else
    { state := { s1 with readEvent := true, readLock := false },
      trace := t0 ++ [.setReadEvent, .releaseLock], blocked := false }

/-- Model of `Camera.reconnect`: `readEvent.clear()`, `loadDevice()`,
`time.sleep(reconnectDelay)`, `readEvent.set()`.  Whether the freshly opened
`VideoCapture` reports open is an input. -/
def CameraState.reconnectStep (s : CameraState) (openOk : Bool) : StepOut :=
  { state := { s with readEvent := true, device := some { opened := openOk } },
    trace := [.clearReadEvent, .loadDevice, .sleep s.reconnectDelay,
              .setReadEvent],
    blocked := false }

/-- Model of `Camera.applyDelay`: `time.sleep(delay)` only when `fps` is not `None`. -/
def CameraState.applyDelayTrace (s : CameraState) : List LoopAct :=
  match s.fps with
  | some _ => [.sleep s.delay]
  | none => []

/-- External input to one iteration of the control loop: the result the
handle would give to `device.read()`, and whether a reopened handle reports
open. -/
structure IterInput where
  readResult : Bool × Frame
  openOk : Bool

/-- One iteration of the `while` body in `Camera.run`: `update()` when
connected, else `reconnect()`; then `applyDelay()`; then `needAPause()`.
A step that blocked inside `queue.put` never reaches the delay or the pause
wait. -/
def CameraState.runIter (s : CameraState) (inp : IterInput) : StepOut :=
  let body := if s.isConnected then s.update inp.readResult
              else s.reconnectStep inp.openOk
  if body.blocked then body
  else
    { state := body.state,
      trace := body.trace ++ body.state.applyDelayTrace ++ [.waitPause],
      blocked := false }

/-- The control loop of `Camera.run`, driven by a finite list of external
inputs (one per iteration); it stops early when an iteration blocks. -/
def CameraState.runLoop (s : CameraState) : List IterInput → StepOut
  | [] => { state := s, trace := [], blocked := false }
  | inp :: rest =>
    let o := s.runIter inp
    if o.blocked then o
    else
      let r := o.state.runLoop rest
      { state := r.state, trace := o.trace ++ r.trace, blocked := r.blocked }

/-- Outcome of a call to `Camera.stop`: either the call returns, or it blocks
forever inside `thread.join()` because the loop thread can never exit (it is
permanently stuck inside the blocking `queue.put`).  Either way the fields
mutated before the join are recorded. -/
inductive StopResult where
  | done (s : CameraState)
  | hangs (s : CameraState)

/-- Did the `stop()` call return to its caller? -/
def StopResult.returns : StopResult → Bool
  | .done _ => true
  | .hangs _ => false

/-- The device state at the end of the call (for a hanging call: the state at
the point the caller is stuck in `join()`, which never changes again). -/
def StopResult.state : StopResult → CameraState
  | .done s => s
  | .hangs s => s

/-- Model of `Camera.stop`: `resume()`; release `readLock` when held; when the loop is
alive, clear `running` and `join()` the thread.  The join returns only once
the loop thread re-checks `running` and exits, running its epilogue
(`queueModeEnabled = False`, `readEvent.set()`, `device.release()`).
`loopBlocked` says whether the loop thread is permanently blocked inside the
blocking `queue.put` (see `Camera.update`): such a thread never reaches the
`while` check again, so `join()` — and hence `stop()` — never returns, and
the epilogue never runs. -/
def CameraState.stop (s : CameraState) (loopBlocked : Bool) : StopResult :=
  let s1 := s.resume
  let s2 := if s1.readLock then { s1 with readLock := false } else s1
  if s2.running then
    if loopBlocked then
      .hangs { s2 with running := false }
    else
      .done { s2 with running := false, queueModeEnabled := false,
                      readEvent := true,
                      device := s2.device.map DeviceHandle.release }
  else .done s2

/-- Model of `Camera.createBackground`: substitute `defaultSize` for a missing size;
for a length-2 size reverse it and `append(3)` — which raises
`AttributeError` on a `tuple`; then `np.zeros(size)` plus the `h, w, _ =
size` unpacking, which needs exactly three entries. -/
def CameraState.createBackground (s : CameraState) (text : String)
    (size : Option PySeq) : Except String Frame :=
  let sq : PySeq := match size with
    | none => .lst s.defaultSize
    | some q => q
  match sq with
  | .lst es =>
    let es2 := if es.length = 2 then es.reverse ++ [3] else es
    if es2.length = 3 then Except.ok (.bg es2 text)
    else Except.error "ValueError: not enough values to unpack"
  | .tup es =>
    if es.length = 2 then
      Except.error "AttributeError: tuple object has no attribute append"
    else if es.length = 3 then Except.ok (.bg es text)
    else Except.error "ValueError: not enough values to unpack"

/-- Model of `Camera.enableBackground`: set the flag, then build and store the
background (the flag is set before `createBackground` can raise). -/
def CameraState.enableBackground (s : CameraState) (text : String)
    (size : Option PySeq) : Except String CameraState :=
  let s1 := { s with backgroundIsEnabled := true }
  match s1.createBackground text size with
  | .ok b => Except.ok { s1 with background := some b }
  | .error e => Except.error e

/-- The constructor arguments of `Camera` that this model uses (defaults as
in the source). -/
structure Config where
  src : Nat := 0
  name : String := "default"
  reconnectDelay : ℚ := 5
  fps : Option ℚ := some 10
  size : Option PySeq := none
  flipX : Bool := false
  flipY : Bool := false
  emitterIsEnabled : Bool := false
  backgroundIsEnabled : Bool := false
  queueModeEnabled : Bool := false
  queueMaxSize : Nat := 96
  text : String := "Device not available"
  processing : Option (Frame → Frame) := none
  encoderIsEnabled : Bool := true

/-- The state `Camera.__init__` builds before the background block: all
fields assigned, `delay = 1/fps` (or `0.1` when `fps` is `None`),
`resume()` called, thread created but not started. -/
def CameraState.mkBase (cfg : Config) : CameraState :=
  { src := cfg.src
    name := cfg.name
    fps := cfg.fps
    size := cfg.size
    flipX := cfg.flipX
    flipY := cfg.flipY
    emitterIsEnabled := cfg.emitterIsEnabled
    backgroundIsEnabled := cfg.backgroundIsEnabled
    queueModeEnabled := cfg.queueModeEnabled
    queueMaxSize := cfg.queueMaxSize
    encoderIsEnabled := cfg.encoderIsEnabled
    processing := cfg.processing
    delay := match cfg.fps with
      | some f => 1 / f
      | none => 1 / 10
    defaultDelay := match cfg.fps with
      | some f => 1 / f
      | none => 1 / 10
    reconnectDelay := cfg.reconnectDelay
    defaultSize := [720, 1280, 3]
    frame := none
    frame64 := none
    background := none
    queue := []
    device := none
    threadStarted := false
    running := false
    pauseEvent := true
    readEvent := false
    readLock := false }

/-- Model of `Camera.__init__`: build the base state, then `enableBackground` when
`backgroundIsEnabled` was requested (which can raise, see
`createBackground`). -/
def CameraState.init (cfg : Config) : Except String CameraState :=
  let s := CameraState.mkBase cfg
  if s.backgroundIsEnabled then
    s.enableBackground cfg.text cfg.size
  else
    Except.ok s

/-- The `Cameras` registry: a name-keyed mapping of `Camera` objects. -/
structure CamerasState where
  devices : List (String × CameraState)

/-- Replace the device stored under `dname` (Python mutates the object held
in the dict). -/
def CamerasState.modifyDevice (c : CamerasState) (dname : String)
    (f : CameraState → CameraState) : CamerasState :=
  { devices := c.devices.map (fun p => if p.1 = dname then (p.1, f p.2) else p) }

/-- Model of `Cameras.startOnly`: guarded by `deviceName in self.devices`;
`device.start()` can raise, which propagates. -/
def CamerasState.startOnly (c : CamerasState) (dname : String) :
    Except String CamerasState :=
  match c.devices.lookup dname with
  | none => Except.ok c
  | some d =>
    match d.start with
    | .ok d2 => Except.ok (c.modifyDevice dname (fun _ => d2))
    | .error e => Except.error e

/-- Model of `Cameras.stopOnly`: the guarded `device.stop()`.  The call can hang
(see `Camera.stop`), in which case `none` records that it never returns. -/
def CamerasState.stopOnly (c : CamerasState) (dname : String)
    (loopBlocked : Bool) : Option CamerasState :=
  match c.devices.lookup dname with
  | none => some c
  | some d =>
    match d.stop loopBlocked with
    | .done d2 => some (c.modifyDevice dname (fun _ => d2))
    | .hangs _ => none

/-- Model of `Cameras.pauseOnly`. -/
def CamerasState.pauseOnly (c : CamerasState) (dname : String) : CamerasState :=
  match c.devices.lookup dname with
  | none => c
  | some _ => c.modifyDevice dname CameraState.pause

/-- Model of `Cameras.resumeOnly`. -/
def CamerasState.resumeOnly (c : CamerasState) (dname : String) : CamerasState :=
  match c.devices.lookup dname with
  | none => c
  | some _ => c.modifyDevice dname CameraState.resume

/-- Model of `Cameras.setSpeedOnly`. -/
def CamerasState.setSpeedOnly (c : CamerasState) (dname : String)
    (fps : Option ℚ) : CamerasState :=
  match c.devices.lookup dname with
  | none => c
  | some _ => c.modifyDevice dname (fun d => d.setSpeed fps)

/-- Model of `Cameras.getDevice`: returns the device, or `None` implicitly for an
unknown name. -/
def CamerasState.getDevice (c : CamerasState) (dname : String) :
    Option CameraState :=
  c.devices.lookup dname

/-- Model of `Cameras.getFrameOf`: `self.devices[deviceName].getFrame()` behind the
same membership guard. -/
def CamerasState.getFrameOf (c : CamerasState) (dname : String) :
    Option Frame :=
  match c.devices.lookup dname with
  | none => none
  | some d => d.getFrame

/-- A successful-read loop input: `device.read()` returns `(True, frame)`. -/
def okInput (n : Nat) : IterInput :=
  { readResult := (true, .raw n), openOk := true }

/-- A failing loop input: `device.read()` returns `(False, _)` and a reopened
handle still reports closed. -/
def failInput : IterInput :=
  { readResult := (false, .raw 0), openOk := false }

/-- A default-configuration camera whose thread has been started and whose
control loop is running on an open handle. -/
def startedCam : CameraState :=
  { CameraState.mkBase {} with
      threadStarted := true, running := true,
      device := some { opened := true } }

/-- A connected camera in queue mode with capacity 2 and an empty queue. -/
def qmCam : CameraState :=
  { CameraState.mkBase { queueModeEnabled := true, queueMaxSize := 2 } with
      device := some { opened := true } }

/-- The queue-mode camera with its thread started and its control loop
running on the open handle. -/
def qmRunCam : CameraState :=
  { qmCam with threadStarted := true, running := true }

/-- The state `qmRunCam`'s producer loop leaves after producing three samples
with none consumed: the third `queue.put` blocked (the run of claim C2), so
the loop thread is permanently stuck inside `put`, holding `readLock`. -/
def blockedCam : CameraState :=
  (qmRunCam.runLoop (List.replicate 3 (okInput 0))).state

/-- A connected camera with `fps = None`. -/
def noFpsCam : CameraState :=
  { CameraState.mkBase { fps := none } with
      device := some { opened := true } }

/-- A connected camera with the default `fps = 10`. -/
def fpsCam : CameraState :=
  { CameraState.mkBase {} with device := some { opened := true } }

/-- A freshly constructed camera: no handle yet, hence not connected. -/
def dcCam : CameraState :=
  CameraState.mkBase {}

/-- A registry holding one default camera under the name `cam1`. -/
def reg1 : CamerasState :=
  { devices := [("cam1", CameraState.mkBase {})] }

lemma CameraState.update_fail (s : CameraState) (f : Frame) :
    s.update (false, f) =
      { state := { s with readEvent := true, readLock := false },
        trace := [.clearReadEvent, .acquireLock, .deviceRead false,
                  .setReadEvent, .releaseLock],
        blocked := false } := rfl

lemma CameraState.update_ok_noqueue (s : CameraState) (f : Frame)
    (hq : s.queueModeEnabled = false) :
    s.update (true, f) =
      { state := { s with frame := some (s.process (s.preprocess f)),
                          readEvent := true, readLock := false },
        trace := [.clearReadEvent, .acquireLock, .deviceRead true,
                  .storeFrame (s.process (s.preprocess f))] ++
          (if s.emitterIsEnabled then
            [.emitEvt "frame-ready", .emitEvt "frame-available"] else []) ++
          [.setReadEvent, .releaseLock],
        blocked := false } := by
  unfold CameraState.update
  simp [hq, CameraState.process, CameraState.preprocess]

lemma CameraState.update_ok_enq (s : CameraState) (f : Frame)
    (hq : s.queueModeEnabled = true)
    (hfull : queueFull s.queueMaxSize s.queue = false) :
    s.update (true, f) =
      { state := { s with frame := some (s.process (s.preprocess f)),
                          queue := s.queue ++ [s.process (s.preprocess f)],
                          readEvent := true, readLock := false },
        trace := [.clearReadEvent, .acquireLock, .deviceRead true,
                  .storeFrame (s.process (s.preprocess f))] ++
          (if s.emitterIsEnabled then
            [.emitEvt "frame-ready", .emitEvt "frame-available"] else []) ++
          [.enqueue (s.process (s.preprocess f)), .setReadEvent, .releaseLock],
        blocked := false } := by
  unfold CameraState.update
  simp [hq, hfull, CameraState.process, CameraState.preprocess]

lemma CameraState.update_ok_full (s : CameraState) (f : Frame)
    (hq : s.queueModeEnabled = true)
    (hfull : queueFull s.queueMaxSize s.queue = true) :
    s.update (true, f) =
      { state := { s with frame := some (s.process (s.preprocess f)),
                          readEvent := false, readLock := true },
        trace := [.clearReadEvent, .acquireLock, .deviceRead true,
                  .storeFrame (s.process (s.preprocess f))] ++
          (if s.emitterIsEnabled then
            [.emitEvt "frame-ready", .emitEvt "frame-available"] else []) ++
          [.putBlocked],
        blocked := true } := by
  unfold CameraState.update
  simp [hq, hfull, CameraState.process, CameraState.preprocess]

lemma CameraState.stop_false_returns (s : CameraState) :
    (s.stop false).returns = true := by
  cases s
  simp only [CameraState.stop, CameraState.resume]
  split_ifs <;> simp_all [StopResult.returns]

lemma CameraState.stop_running (s : CameraState) :
    (s.stop false).state.running = false := by
  cases s
  simp only [CameraState.stop, CameraState.resume, StopResult.state]
  split_ifs <;> simp_all [StopResult.state]

lemma CameraState.stop_pauseEvent (s : CameraState) :
    (s.stop false).state.pauseEvent = true := by
  cases s
  simp only [CameraState.stop, CameraState.resume, StopResult.state]
  split_ifs <;> simp_all [StopResult.state]

lemma CameraState.stop_readLock (s : CameraState) :
    (s.stop false).state.readLock = false := by
  cases s
  simp only [CameraState.stop, CameraState.resume, StopResult.state]
  split_ifs <;> simp_all [StopResult.state]

lemma CameraState.stop_of_stopped (s : CameraState) (h1 : s.pauseEvent = true)
    (h2 : s.readLock = false) (h3 : s.running = false) :
    (s.stop false).state = s := by
  cases s
  simp_all only [CameraState.stop, CameraState.resume]
  rfl

lemma CameraState.stop_stop (s : CameraState) :
    (((s.stop false).state).stop false).state = (s.stop false).state :=
  CameraState.stop_of_stopped _ (CameraState.stop_pauseEvent s)
    (CameraState.stop_readLock s) (CameraState.stop_running s)

lemma CameraState.stop_releases (s : CameraState) (h : s.running = true) :
    (s.stop false).state.device = s.device.map DeviceHandle.release := by
  cases s
  simp only at h
  subst h
  simp only [CameraState.stop, CameraState.resume, StopResult.state]
  split_ifs <;> simp_all [StopResult.state]

lemma CameraState.stop_blocked_hangs (s : CameraState) (h : s.running = true) :
    (s.stop true).returns = false ∧ (s.stop true).state.device = s.device := by
  cases s
  simp only at h
  subst h
  simp only [CameraState.stop, CameraState.resume]
  split_ifs <;> simp_all [StopResult.returns, StopResult.state]

lemma CameraState.runIter_disconnected (s : CameraState) (inp : IterInput)
    (h : s.isConnected = false) :
    s.runIter inp =
      { state := { s with readEvent := true,
                          device := some { opened := inp.openOk } },
        trace := [.clearReadEvent, .loadDevice, .sleep s.reconnectDelay,
                  .setReadEvent] ++ s.applyDelayTrace ++ [.waitPause],
        blocked := false } := by
  unfold CameraState.runIter CameraState.reconnectStep
  simp [h, CameraState.applyDelayTrace]

lemma CameraState.runIter_connected (s : CameraState) (inp : IterInput)
    (h : s.isConnected = true) (hnb : (s.update inp.readResult).blocked = false) :
    s.runIter inp =
      { state := (s.update inp.readResult).state,
        trace := (s.update inp.readResult).trace
          ++ (s.update inp.readResult).state.applyDelayTrace ++ [.waitPause],
        blocked := false } := by
  unfold CameraState.runIter
  simp [h, hnb]

lemma CameraState.runIter_connected_blocked (s : CameraState) (inp : IterInput)
    (h : s.isConnected = true) (hb : (s.update inp.readResult).blocked = true) :
    s.runIter inp = s.update inp.readResult := by
  unfold CameraState.runIter
  simp [h, hb]

lemma runLoop_fail_trace (s : CameraState) (n : Nat) (h : s.isConnected = false) :
    (s.runLoop (List.replicate n failInput)).trace =
      List.flatten (List.replicate n
        ([LoopAct.clearReadEvent, .loadDevice, .sleep s.reconnectDelay,
          .setReadEvent] ++ s.applyDelayTrace ++ [.waitPause])) := by
  induction n generalizing s with
  | zero => simp [CameraState.runLoop]
  | succ n ih =>
    have h2 : ({ s with readEvent := true,
                        device := some { opened := failInput.openOk } } :
        CameraState).isConnected = false := rfl
    rw [List.replicate_succ]
    simp only [CameraState.runLoop, CameraState.runIter_disconnected s failInput h]
    simp only [List.replicate_succ, List.flatten_cons, ih _ h2]
    rfl

lemma runLoop_queue_growth (K : Nat) :
    ∀ (n : Nat) (s : CameraState), s.isConnected = true →
      s.queueModeEnabled = true → s.queueMaxSize = K → s.queue.length ≤ K →
      0 < K →
      (s.runLoop (List.replicate n (okInput 0))).state.queue.length
          = min (s.queue.length + n) K
        ∧ (s.runLoop (List.replicate n (okInput 0))).blocked
          = decide (K < s.queue.length + n) := by
  intro n
  induction n with
  | zero =>
    intro s hc hq hm hlen hK
    refine ⟨?_, ?_⟩ <;> simp [CameraState.runLoop] <;> omega
  | succ n ih =>
    intro s hc hq hm hlen hK
    by_cases hfull : queueFull s.queueMaxSize s.queue = true
    · have hlK : s.queue.length = K := by
        unfold queueFull at hfull
        simp at hfull
        omega
      have hupd : s.update ((okInput 0).readResult) =
          { state := { s with frame := some (s.process (s.preprocess (.raw 0))),
                              readEvent := false, readLock := true },
            trace := [.clearReadEvent, .acquireLock, .deviceRead true,
                      .storeFrame (s.process (s.preprocess (.raw 0)))] ++
              (if s.emitterIsEnabled then
                [.emitEvt "frame-ready", .emitEvt "frame-available"] else []) ++
              [.putBlocked],
            blocked := true } :=
        CameraState.update_ok_full s (.raw 0) hq hfull
      have hb : (s.update ((okInput 0).readResult)).blocked = true := by
        rw [hupd]
      rw [List.replicate_succ]
      simp only [CameraState.runLoop,
        CameraState.runIter_connected_blocked s (okInput 0) hc hb, hupd]
      simp
      omega
    · have hfull2 : queueFull s.queueMaxSize s.queue = false := by
        simp [hfull]
      have hlenK : s.queue.length < K := by
        unfold queueFull at hfull2
        simp at hfull2
        omega
      set fr := s.process (s.preprocess (Frame.raw 0)) with hfr
      set s2 : CameraState :=
        { s with frame := some fr, queue := s.queue ++ [fr],
                 readEvent := true, readLock := false } with hs2
      have hupd : s.update ((okInput 0).readResult) =
          { state := s2,
            trace := [.clearReadEvent, .acquireLock, .deviceRead true,
                      .storeFrame fr] ++
              (if s.emitterIsEnabled then
                [.emitEvt "frame-ready", .emitEvt "frame-available"] else []) ++
              [.enqueue fr, .setReadEvent, .releaseLock],
            blocked := false } :=
        CameraState.update_ok_enq s (.raw 0) hq hfull2
      have hnb : (s.update ((okInput 0).readResult)).blocked = false := by
        rw [hupd]
      rw [List.replicate_succ]
      simp only [CameraState.runLoop,
        CameraState.runIter_connected s (okInput 0) hc hnb, hupd,
        Bool.false_eq_true, if_false]
      obtain ⟨ih1, ih2⟩ := ih s2 (by exact hc) (by exact hq) (by exact hm)
        (by rw [hs2]; simp; omega) hK
      rw [ih1, ih2]
      have hlen2 : s2.queue.length = s.queue.length + 1 := by
        rw [hs2]; simp
      rw [hlen2]
      constructor
      · omega
      · rw [show s.queue.length + 1 + n = s.queue.length + (n + 1) by omega]

lemma CameraState.update_frame64 (s : CameraState) (r : Bool × Frame) :
    (s.update r).state.frame64 = s.frame64 := by
  unfold CameraState.update
  dsimp only
  split
  · split
    · split <;> rfl
    · rfl
  · rfl

lemma CameraState.runIter_frame64 (s : CameraState) (inp : IterInput) :
    (s.runIter inp).state.frame64 = s.frame64 := by
  unfold CameraState.runIter CameraState.reconnectStep
  dsimp only
  split
  · split
    · exact CameraState.update_frame64 s inp.readResult
    · exact CameraState.update_frame64 s inp.readResult
  · split <;> rfl

lemma CameraState.runLoop_frame64 (s : CameraState) (inputs : List IterInput) :
    (s.runLoop inputs).state.frame64 = s.frame64 := by
  induction inputs generalizing s with
  | nil => rfl
  | cons inp rest ih =>
    simp only [CameraState.runLoop]
    split
    · exact CameraState.runIter_frame64 s inp
    · rw [ih (s.runIter inp).state, CameraState.runIter_frame64 s inp]

lemma CameraState.update_trace_last (s : CameraState) (r : Bool × Frame)
    (hnb : (s.update r).blocked = false) :
    (s.update r).trace.getLast? = some .releaseLock := by
  rcases r with ⟨ok, f⟩
  cases ok with
  | false =>
    rw [CameraState.update_fail]
    rfl
  | true =>
    by_cases hq : s.queueModeEnabled = true
    · by_cases hfull : queueFull s.queueMaxSize s.queue = true
      · rw [CameraState.update_ok_full s f hq hfull] at hnb
        simp at hnb
      · rw [Bool.not_eq_true] at hfull
        rw [CameraState.update_ok_enq s f hq hfull]
        dsimp only
        rw [List.getLast?_append_cons]
        rfl
    · rw [Bool.not_eq_true] at hq
      rw [CameraState.update_ok_noqueue s f hq]
      dsimp only
      rw [List.getLast?_append_cons]
      rfl

lemma CameraState.stop_iterate (s : CameraState) (n : Nat) (h : 1 ≤ n) :
    (fun x : CameraState => (x.stop false).state)^[n] s
      = (s.stop false).state := by
  induction n with
  | zero => omega
  | succ n ih =>
    rcases Nat.eq_or_lt_of_le h with h1 | h1
    · rw [← h1]
      simp
    · have hn : 1 ≤ n := by omega
      rw [Function.iterate_succ_apply', ih hn]
      exact CameraState.stop_stop s

lemma CameraState.update_fps (s : CameraState) (r : Bool × Frame) :
    (s.update r).state.fps = s.fps := by
  unfold CameraState.update
  dsimp only
  split
  · split
    · split <;> rfl
    · rfl
  · rfl

lemma CameraState.update_delay (s : CameraState) (r : Bool × Frame) :
    (s.update r).state.delay = s.delay := by
  unfold CameraState.update
  dsimp only
  split
  · split
    · split <;> rfl
    · rfl
  · rfl

lemma CameraState.update_reconnectDelay (s : CameraState) (r : Bool × Frame) :
    (s.update r).state.reconnectDelay = s.reconnectDelay := by
  unfold CameraState.update
  dsimp only
  split
  · split
    · split <;> rfl
    · rfl
  · rfl

lemma CameraState.runIter_reconnectDelay (s : CameraState) (inp : IterInput) :
    (s.runIter inp).state.reconnectDelay = s.reconnectDelay := by
  unfold CameraState.runIter CameraState.reconnectStep
  dsimp only
  split
  · split
    · exact CameraState.update_reconnectDelay s inp.readResult
    · exact CameraState.update_reconnectDelay s inp.readResult
  · split <;> rfl

lemma CameraState.runLoop_reconnectDelay (s : CameraState)
    (inputs : List IterInput) :
    (s.runLoop inputs).state.reconnectDelay = s.reconnectDelay := by
  induction inputs generalizing s with
  | nil => rfl
  | cons inp rest ih =>
    simp only [CameraState.runLoop]
    split
    · exact CameraState.runIter_reconnectDelay s inp
    · rw [ih (s.runIter inp).state, CameraState.runIter_reconnectDelay s inp]

/-- C1 counterexample: on a device whose control loop is running (thread
already started), a second `start()` raises `RuntimeError` — it is not a
no-op. -/
theorem claim_C1_counterexample :
    startedCam.running = true ∧
      startedCam.start =
        Except.error "RuntimeError: threads can only be started once" :=
  ⟨rfl, rfl⟩

/-- C1 (amended): calling `start()` when the thread was already started
raises `RuntimeError` (from `threading.Thread.start`); it does not spawn a
second control loop and the device state is untouched by the failed call. -/
theorem claim_C1_start_twice_raises (s : CameraState)
    (h : s.threadStarted = true) :
    s.start = Except.error "RuntimeError: threads can only be started once" := by
  unfold CameraState.start
  rw [if_pos h]

/-- C1 witness. -/
theorem claim_C1_witness :
    startedCam.threadStarted = true ∧
      startedCam.start =
        Except.error "RuntimeError: threads can only be started once" :=
  ⟨rfl, claim_C1_start_twice_raises startedCam rfl⟩

/-- C2 counterexample: with queue capacity `K = 2`, producing 3 samples with
none consumed blocks the producer loop inside `queue.put`. -/
theorem claim_C2_counterexample :
    qmCam.queueMaxSize = 2 ∧
      (qmCam.runLoop (List.replicate 3 (okInput 0))).blocked = true :=
  ⟨rfl, rfl⟩

/-- C2 (amended): with queue capacity `K > 0`, producing `n` samples faster
than they are consumed leaves `min n K` samples in the queue (so at most `K`
are ever available for dequeue), but the producer loop blocks inside the
`K+1`-th `queue.put` whenever `n > K`: the enqueue is a blocking put, not a
non-blocking one. -/
theorem claim_C2_bounded_but_blocking (s : CameraState) (K n : Nat)
    (hc : s.isConnected = true) (hq : s.queueModeEnabled = true)
    (hK : s.queueMaxSize = K) (h0 : 0 < K) (hempty : s.queue = []) :
    (s.runLoop (List.replicate n (okInput 0))).state.queue.length = min n K
      ∧ (s.runLoop (List.replicate n (okInput 0))).blocked = decide (K < n) := by
  have h := runLoop_queue_growth K n s hc hq hK
    (by rw [hempty]; simp) h0
  rw [hempty] at h
  simpa using h

/-- C2 witness. -/
theorem claim_C2_witness :
    (qmCam.runLoop (List.replicate 3 (okInput 0))).state.queue.length = min 3 2
      ∧ (qmCam.runLoop (List.replicate 3 (okInput 0))).blocked
        = decide (2 < 3) :=
  claim_C2_bounded_but_blocking qmCam 2 3 rfl rfl rfl (by decide) rfl

/-- C3 counterexample: on a connected camera constructed with `fps = None`, a
loop iteration around a successful acquisition performs no sleep at all —
there is no "fixed idle delay" after the attempt (`applyDelay` only sleeps
when `fps` is not `None`). -/
theorem claim_C3_counterexample :
    noFpsCam.fps = none ∧ noFpsCam.isConnected = true ∧
      (noFpsCam.runIter (okInput 0)).trace.filter LoopAct.isSleep = [] :=
  ⟨rfl, rfl, rfl⟩

/-- C3 (amended): after each non-blocking acquisition attempt, the loop
sleeps `1/fps` when an fps is configured, and does not sleep at all when
`fps` is `None`; in both cases the acquisition lock release is the last
action of the acquisition step, so any sleep happens after the lock is
released. -/
theorem claim_C3_delay_after_release (s : CameraState) (inp : IterInput)
    (f : ℚ) (hc : s.isConnected = true)
    (hnb : (s.update inp.readResult).blocked = false) :
    (s.update inp.readResult).trace.getLast? = some .releaseLock
    ∧ (s.fps = some f → s.delay = 1 / f →
        (s.runIter inp).trace
          = (s.update inp.readResult).trace ++ [.sleep (1 / f), .waitPause])
    ∧ (s.fps = none →
        (s.runIter inp).trace
          = (s.update inp.readResult).trace ++ [.waitPause]) := by
  refine ⟨CameraState.update_trace_last s inp.readResult hnb, ?_, ?_⟩
  · intro hf hd
    rw [CameraState.runIter_connected s inp hc hnb]
    have h1 : (s.update inp.readResult).state.applyDelayTrace
        = [LoopAct.sleep (1 / f)] := by
      unfold CameraState.applyDelayTrace
      rw [CameraState.update_fps, CameraState.update_delay, hf, hd]
    dsimp only
    rw [h1, List.append_assoc]
    rfl
  · intro hf
    rw [CameraState.runIter_connected s inp hc hnb]
    have h1 : (s.update inp.readResult).state.applyDelayTrace = [] := by
      unfold CameraState.applyDelayTrace
      rw [CameraState.update_fps, hf]
    dsimp only
    rw [h1, List.append_nil]

/-- C3 witness. -/
theorem claim_C3_witness :
    (fpsCam.runIter (okInput 0)).trace
      = (fpsCam.update (okInput 0).readResult).trace
          ++ [.sleep (1 / 10), .waitPause] :=
  (claim_C3_delay_after_release fpsCam (okInput 0) 10 rfl rfl).2.1 rfl rfl

/-- C5 (code bug): no acquisition step ever assigns the secondary encoding —
the encoding statement in `update` is commented out — so across any run of
the control loop `getFrame64()` keeps its prior value, and from construction
(`frame64 = None`) it returns `None` even after successful acquisitions,
although `encoderIsEnabled` defaults to true and the encoder is built. -/
theorem claim_C5_frame64_never_set (s : CameraState) (inputs : List IterInput)
    (cfg : Config) :
    (s.runLoop inputs).state.getFrame64 = s.getFrame64
      ∧ (CameraState.mkBase cfg).getFrame64 = none :=
  ⟨CameraState.runLoop_frame64 s inputs, rfl⟩

/-- C6 counterexample: the producer loop of a running queue-mode camera is
permanently blocked inside the blocking `queue.put` (the run of claim C2); on
the residual state, `stop()` clears `running` but never returns — it blocks
forever in `thread.join()` — and the handle stays open: `stop()` does not
always leave the device stopped with the handle released. -/
theorem claim_C6_counterexample :
    (qmRunCam.runLoop (List.replicate 3 (okInput 0))).blocked = true
      ∧ blockedCam.running = true
      ∧ (blockedCam.stop true).returns = false
      ∧ (blockedCam.stop true).state.device = some { opened := true } :=
  ⟨rfl, rfl, rfl, rfl⟩

/-- C6 (amended): whenever the control loop is not permanently blocked inside
the blocking `queue.put`, `stop()` is idempotent — `N ≥ 1` calls equal one
call, each call returns, the running signal ends cleared, and a running
device's handle is released by the joined loop's epilogue.  When the loop IS
blocked in the put, `stop()` on a running device clears `running` but hangs
forever in `thread.join()`, and the handle is never released. -/
theorem claim_C6_stop_idempotent (s : CameraState) (n : Nat) (h : 1 ≤ n) :
    (fun x : CameraState => (x.stop false).state)^[n] s = (s.stop false).state
      ∧ (s.stop false).returns = true
      ∧ (s.stop false).state.running = false
      ∧ (s.running = true →
          (s.stop false).state.device = s.device.map DeviceHandle.release)
      ∧ (s.running = true →
          (s.stop true).returns = false
            ∧ (s.stop true).state.device = s.device) :=
  ⟨CameraState.stop_iterate s n h, CameraState.stop_false_returns s,
    CameraState.stop_running s,
    fun hr => CameraState.stop_releases s hr,
    fun hr => CameraState.stop_blocked_hangs s hr⟩

/-- C6 witness. -/
theorem claim_C6_witness :
    (fun x : CameraState => (x.stop false).state)^[2] startedCam
        = (startedCam.stop false).state
      ∧ (startedCam.stop false).returns = true
      ∧ (startedCam.stop false).state.running = false
      ∧ (startedCam.stop false).state.device
          = startedCam.device.map DeviceHandle.release
      ∧ (startedCam.stop true).returns = false
      ∧ (startedCam.stop true).state.device = startedCam.device :=
  ⟨(claim_C6_stop_idempotent startedCam 2 (by decide)).1,
    (claim_C6_stop_idempotent startedCam 2 (by decide)).2.1,
    (claim_C6_stop_idempotent startedCam 2 (by decide)).2.2.1,
    (claim_C6_stop_idempotent startedCam 2 (by decide)).2.2.2.1 rfl,
    ((claim_C6_stop_idempotent startedCam 2 (by decide)).2.2.2.2 rfl).1,
    ((claim_C6_stop_idempotent startedCam 2 (by decide)).2.2.2.2 rfl).2⟩

/-- C7: while the handle reports not-ready, every loop iteration performs
exactly `readEvent.clear(); loadDevice(); sleep(reconnectDelay);
readEvent.set()` followed by the loop's delay/pause tail, with the same fixed
`reconnectDelay` on every one of the `n` iterations (no backoff, no retry
ceiling), for every `reconnectDelay` and every `n`. -/
theorem claim_C7_reconnect_policy (s : CameraState) (n : Nat)
    (h : s.isConnected = false) :
    (s.runLoop (List.replicate n failInput)).trace =
      List.flatten (List.replicate n
        ([LoopAct.clearReadEvent, .loadDevice, .sleep s.reconnectDelay,
          .setReadEvent] ++ s.applyDelayTrace ++ [.waitPause]))
      ∧ (s.runLoop (List.replicate n failInput)).state.reconnectDelay
          = s.reconnectDelay :=
  ⟨runLoop_fail_trace s n h, CameraState.runLoop_reconnectDelay s _⟩

/-- C7 witness. -/
theorem claim_C7_witness :
    (dcCam.runLoop (List.replicate 2 failInput)).trace =
      List.flatten (List.replicate 2
        ([LoopAct.clearReadEvent, .loadDevice, .sleep dcCam.reconnectDelay,
          .setReadEvent] ++ dcCam.applyDelayTrace ++ [.waitPause]))
      ∧ (dcCam.runLoop (List.replicate 2 failInput)).state.reconnectDelay
          = dcCam.reconnectDelay :=
  claim_C7_reconnect_policy dcCam 2 rfl

/-- C8: every by-name registry operation given a name absent from the device
mapping is a no-op — nothing is raised and the registry (hence every
existing device's state) is unchanged; the getters yield `None`. -/
theorem claim_C8_unknown_name_noop (c : CamerasState) (dname : String)
    (fps : Option ℚ) (lb : Bool) (h : c.devices.lookup dname = none) :
    c.startOnly dname = Except.ok c
      ∧ c.stopOnly dname lb = some c
      ∧ c.pauseOnly dname = c
      ∧ c.resumeOnly dname = c
      ∧ c.setSpeedOnly dname fps = c
      ∧ c.getDevice dname = none
      ∧ c.getFrameOf dname = none := by
  unfold CamerasState.startOnly CamerasState.stopOnly CamerasState.pauseOnly
    CamerasState.resumeOnly CamerasState.setSpeedOnly CamerasState.getDevice
    CamerasState.getFrameOf
  simp [h]

/-- C8 witness. -/
theorem claim_C8_witness :
    reg1.startOnly "ghost" = Except.ok reg1
      ∧ reg1.stopOnly "ghost" true = some reg1
      ∧ reg1.pauseOnly "ghost" = reg1
      ∧ reg1.resumeOnly "ghost" = reg1
      ∧ reg1.setSpeedOnly "ghost" none = reg1
      ∧ reg1.getDevice "ghost" = none
      ∧ reg1.getFrameOf "ghost" = none :=
  claim_C8_unknown_name_noop reg1 "ghost" none true rfl

/-- C9: when `device.read()` reports failure, the acquisition step leaves the
stored frame, the queue and the encoding untouched, emits no event, enqueues
nothing, and still sets `readEvent` and releases the acquisition lock without
blocking. -/
theorem claim_C9_failed_read_step (s : CameraState) (f : Frame) :
    (s.update (false, f)).state.frame = s.frame
      ∧ (s.update (false, f)).state.queue = s.queue
      ∧ (s.update (false, f)).state.frame64 = s.frame64
      ∧ (s.update (false, f)).trace.filter LoopAct.isEmit = []
      ∧ (s.update (false, f)).trace.filter LoopAct.isEnqueue = []
      ∧ (s.update (false, f)).state.readEvent = true
      ∧ (s.update (false, f)).state.readLock = false
      ∧ (s.update (false, f)).blocked = false := by
  simp [CameraState.update_fail, LoopAct.isEmit, LoopAct.isEnqueue]

/-- C10: `createBackground` with a 2-element tuple as `size` raises
`AttributeError` (the reversed tuple cannot be extended in place with the
channel dimension), and so do `enableBackground` and construction with
`backgroundIsEnabled=True`; 2-element lists and 3-element sizes succeed. -/
theorem claim_C10_tuple_size_raises (s : CameraState) (text : String)
    (a b c : Nat) :
    s.createBackground text (some (.tup [a, b]))
        = Except.error "AttributeError: tuple object has no attribute append"
      ∧ s.createBackground text (some (.lst [a, b]))
          = Except.ok (.bg [b, a, 3] text)
      ∧ s.createBackground text (some (.tup [a, b, c]))
          = Except.ok (.bg [a, b, c] text)
      ∧ s.createBackground text (some (.lst [a, b, c]))
          = Except.ok (.bg [a, b, c] text)
      ∧ s.enableBackground text (some (.tup [a, b]))
          = Except.error "AttributeError: tuple object has no attribute append"
      ∧ CameraState.init { backgroundIsEnabled := true, size := some (.tup [a, b]) }
          = Except.error "AttributeError: tuple object has no attribute append" :=
  ⟨rfl, rfl, rfl, rfl, rfl, rfl⟩
